import Mathlib

/-!
Shallow embedding of the real-time messaging and notification subsystem of
the autoharbour backend (src/sockets/messagingSockets.ts,
src/sockets/notificationSocket.ts, src/services/messagingService.ts,
src/services/notificationService.ts).

Persisted tables are modelled as lists of rows inside a `DB` record; each
socket handler or service function is a pure function from the database
state (plus its inputs) to the new database state together with the ordered
trace of actions it performs (persistence writes and socket emissions).
JavaScript truthiness on optional numbers and strings is modelled
explicitly (`jsOrNull`, `jsTruthy`, `jsOrUndefStr`), and the default
`Array.prototype.sort()` used for the conversation room key is modelled as
what it is in JavaScript: a sort by decimal-string comparison.
-/

namespace AutoHarbour

/-- A user row, restricted to the fields the messaging subsystem reads
(`id`, `name`, `avatar`, `isVerified`). -/
structure User where
  id : Nat
  name : String
  avatar : Option String
  isVerified : Bool
  deriving Repr, DecidableEq

/-- A Message row. `createdAt` is not modelled (no claim mentions time).
`listingId` is `Option Nat`: `none` is SQL NULL. -/
structure Message where
  id : Nat
  content : String
  senderId : Nat
  receiverId : Nat
  listingId : Option Nat
  isRead : Bool
  deriving Repr, DecidableEq

/-- The NotificationType enum of the Prisma schema, as enumerated in
`getEmailEnabledForType` and the spec's data model. -/
inductive NotificationType where
  | NEW_MESSAGE
  | SEARCH_MATCH
  | LISTING_INQUIRY
  | LISTING_FAVORITED
  | REPORT_RESOLVED
  | WEEKLY_DIGEST
  deriving Repr, DecidableEq

/-- A Notification row (`createdAt` not modelled; the structured `data`
payload is modelled as an optional string). -/
structure Notification where
  id : Nat
  userId : Nat
  ntype : NotificationType
  title : String
  message : String
  data : Option String
  read : Bool
  deriving Repr, DecidableEq

/-- A NotificationSetting row: per-user boolean toggles consumed by
`getEmailEnabledForType` and the `emailNotifications` master switch. -/
structure NotificationSetting where
  userId : Nat
  emailNotifications : Bool
  newMessageEmail : Bool
  searchMatchEmail : Bool
  listingInquiryEmail : Bool
  listingFavoritedEmail : Bool
  reportResolvedEmail : Bool
  weeklyDigestEmail : Bool
  deriving Repr, DecidableEq

/-- Modelled from the spec: the Prisma schema file is not under src/; the
spec's NotificationSetting is "lazily created with defaults on first
access" with permissive defaults, matching `prisma.notificationSetting.create({ data: { userId } })`. -/
def defaultSettings (userId : Nat) : NotificationSetting :=
  { userId := userId
    emailNotifications := true
    newMessageEmail := true
    searchMatchEmail := true
    listingInquiryEmail := true
    listingFavoritedEmail := true
    reportResolvedEmail := true
    weeklyDigestEmail := true }

/-- A NotificationQueue row (the asynchronous outbound-email job created at
the end of `createNotificationService`). -/
structure QueueItem where
  userId : Nat
  ntype : NotificationType
  title : String
  message : String
  data : Option String
  deriving Repr, DecidableEq

/-- The persisted store: one list per table the messaging core touches,
plus autoincrement counters for the two tables this core inserts into. -/
structure DB where
  users : List User
  listings : List Nat
  messages : List Message
  notifications : List Notification
  settings : List NotificationSetting
  queue : List QueueItem
  nextMessageId : Nat
  nextNotificationId : Nat
  deriving Repr, DecidableEq

/-- `prisma.user.findUnique({ where: { id } })`. -/
def findUser (db : DB) (id : Nat) : Option User :=
  db.users.find? (fun u => u.id = id)

/-- `prisma.listing.findUnique({ where: { id } })` reduced to existence. -/
def listingExists (db : DB) (id : Nat) : Bool :=
  db.listings.contains id

/-- JavaScript `x || null` (and `x || undefined`) on an optional number:
`undefined`, `null` and `0` all collapse to `none`. -/
def jsOrNull : Option Nat → Option Nat
  | some v => if v = 0 then none else some v
  | none => none

/-- JavaScript truthiness of an optional number (`if (x)`): `undefined`
and `0` are falsy. -/
def jsTruthy : Option Nat → Bool
  | some v => v ≠ 0
  | none => false

/-- JavaScript `s || undefined` on an optional string: `null` and the
empty string collapse to `none`. -/
def jsOrUndefStr : Option String → Option String
  | some s => if s = "" then none else some s
  | none => none

/-- JavaScript `String.prototype.trim()`: strip leading and trailing
whitespace from the character sequence. -/
def jsTrim (s : String) : String :=
  ⟨((s.data.dropWhile Char.isWhitespace).reverse.dropWhile
      Char.isWhitespace).reverse⟩

/-- Lexicographic comparison of code-unit sequences: the string
comparison JavaScript's default `Array.prototype.sort()` comparator
performs after converting the elements to strings (decimal digits are
ASCII, where UTF-16 code units and code points coincide). -/
def charListLt : List Char → List Char → Bool
  | [], [] => false
  | [], _ :: _ => true
  | _ :: _, [] => false
  | c :: cs, d :: ds =>
    if c.toNat < d.toNat then true
    else if d.toNat < c.toNat then false
    else charListLt cs ds

/-- JavaScript string comparison `a < b` on the underlying character
sequences. -/
def jsStrLt (a b : String) : Bool := charListLt a.data b.data

/-- The canonical conversation room key,
`[a, b].sort().join("_")` (messagingSockets.ts lines 69, 83, 163, 186,
195): JavaScript's default sort compares the decimal string forms, so the
smaller *string* comes first, and the two strings are joined with "_". -/
def roomName (a b : Nat) : String :=
  String.intercalate "_"
    ((if jsStrLt (toString b) (toString a) then [b, a] else [a, b]).map
      toString)

/-- The personal room `user_${userId}`. -/
def personalRoom (userId : Nat) : String :=
  "user_" ++ toString userId

/-- The identity fields sent in message payloads (`select: { id, name,
avatar }` on sender/receiver). -/
structure UserBrief where
  id : Nat
  name : String
  avatar : Option String
  deriving Repr, DecidableEq

/-- The shaped message payload (`messageResponse` in the socket handler,
`formatMessageResponse` in the service): `listingId || undefined` and
`avatar || undefined` applied. -/
structure MessageResponse where
  id : Nat
  content : String
  isRead : Bool
  listingId : Option Nat
  sender : UserBrief
  receiver : UserBrief
  deriving Repr, DecidableEq

/-- Events emitted to sockets, one constructor per event name with its
payload shape. -/
inductive SEvent where
  | newMessage (m : MessageResponse)
  | messageSent (m : MessageResponse)
  | messageNotification (senderId : Nat) (senderName : String)
      (content : String) (listingId : Option Nat)
  | messageError (message : String)
  | messagesRead (readBy : Nat) (readByName : String) (count : Nat)
  | messagesMarkedRead (count : Nat)
  | userTyping (userId : Nat) (userName : String)
  | userStoppedTyping (userId : Nat)
  | newNotification (id : Nat) (ntype : NotificationType) (title : String)
      (message : String) (data : Option String) (read : Bool)
  | notificationCountUpdated (unreadCount : Nat)
  deriving Repr, DecidableEq

/-- Where an emission goes: `io.to(room).emit` reaches every connection in
the room; `socket.emit` reaches the handling connection only;
`socket.to(room).emit` reaches the room minus the handling connection. -/
inductive Target where
  | room (name : String)
  | self
  | roomExceptSelf (name : String)
  deriving Repr, DecidableEq

/-- One step of a handler's observable behaviour, in execution order:
a persistence write or a socket emission. -/
inductive Action where
  | dbCreateMessage (m : Message)
  | dbUpdateMessagesRead (senderId receiverId : Nat)
  | dbCreateNotification (n : Notification)
  | dbUpdateNotificationRead (id : Nat)
  | dbUpdateAllNotificationsRead (userId : Nat)
  | dbCreateSettings (userId : Nat)
  | dbEnqueueEmail (q : QueueItem)
  | joinRoom (name : String)
  | leaveRoom (name : String)
  | emit (t : Target) (e : SEvent)
  deriving Repr, DecidableEq

/-- Is the action a socket emission? -/
def Action.isEmit : Action → Bool
  | .emit _ _ => true
  | _ => false

/-- The socket emissions of a trace, in order. -/
def emissions (acts : List Action) : List Action :=
  acts.filter Action.isEmit

/-- The row `prisma.message.create` inserts: the next autoincrement id,
the given fields, and the read flag defaulting to false. -/
def newMessageRow (db : DB) (content : String) (senderId receiverId : Nat)
    (listingId : Option Nat) : Message :=
  { id := db.nextMessageId
    content := content
    senderId := senderId
    receiverId := receiverId
    listingId := listingId
    isRead := false }

/-- `prisma.message.create({ data, include: { sender, receiver } })`.
Modelled from the spec: the Prisma schema file is not under src/, so the
row defaults and referential behaviour follow the spec's data model
(Message: "read flag (default false)", sender/receiver are user
identifiers, "optional associated listing identifier"): the insert fails
(the promise rejects; here `none`) when the sender, the receiver, or a
supplied listing id does not reference an existing row, and the read flag
of the created row is false. On success the created row is returned
together with the included sender and receiver records. -/
def messageCreate (db : DB) (content : String) (senderId receiverId : Nat)
    (listingId : Option Nat) : Option (Message × User × User × DB) :=
  match findUser db senderId with
  | none => none
  | some s =>
    match findUser db receiverId with
    | none => none
    | some r =>
      if (match listingId with
          | some l => listingExists db l
          | none => true) then
        some (newMessageRow db content senderId receiverId listingId, s, r,
          { db with
              messages := db.messages ++
                [newMessageRow db content senderId receiverId listingId],
              nextMessageId := db.nextMessageId + 1 })
      else none

/-- The payload shaping shared by the socket handler's inline
`messageResponse` object and the service's `formatMessageResponse`:
`listingId || undefined` and `avatar || undefined` applied to the row and
the included sender/receiver records. -/
def mkMessageResponse (m : Message) (s r : User) : MessageResponse :=
  { id := m.id
    content := m.content
    isRead := m.isRead
    listingId := jsOrNull m.listingId
    sender := { id := s.id, name := s.name, avatar := jsOrUndefStr s.avatar }
    receiver := { id := r.id, name := r.name, avatar := jsOrUndefStr r.avatar } }

/-- The `send_message` socket handler (messagingSockets.ts lines 87-181):
validation (empty content, unknown receiver, self-send) emits a
`message_error` to the handling socket and stops; otherwise the Message
row is created, then `new_message` goes to the canonical conversation
room, `message_notification` to the receiver's personal room, and
`message_sent` back to the sending socket, in that order. A create
failure is caught and surfaces as `message_error` with no other
emission. -/
def sendMessageHandler (db : DB) (selfId : Nat) (selfName : String)
    (content : String) (receiverId : Nat) (listingId : Option Nat) :
    DB × List Action :=
  if jsTrim content = "" then
    (db, [.emit .self (.messageError "Message content is required")])
  else
    match findUser db receiverId with
    | none => (db, [.emit .self (.messageError "Receiver not found")])
    | some _ =>
      if selfId = receiverId then
        (db, [.emit .self (.messageError "Cannot send message to yourself")])
      else
        match messageCreate db (jsTrim content) selfId receiverId
            (jsOrNull listingId) with
        | none => (db, [.emit .self (.messageError "Failed to send message")])
        | some (m, s, r, db2) =>
          let mr := mkMessageResponse m s r
          (db2,
            [ .dbCreateMessage m,
              .emit (.room (roomName selfId receiverId)) (.newMessage mr),
              .emit (.room (personalRoom receiverId))
                (.messageNotification selfId selfName (jsTrim content)
                  (jsOrNull listingId)),
              .emit .self (.messageSent mr) ])

/-- The DTO of the REST send path (types/message.ts): `listingId?` is an
optional number. -/
structure CreateMessageDTO where
  content : String
  receiverId : Nat
  listingId : Option Nat
  deriving Repr, DecidableEq

/-- The service `sendMessage` (messagingService.ts lines 8-67): same
validation as the socket handler plus a listing-existence check guarded
by JavaScript truthiness of `messageData.listingId`; throws (here
`.error`) on any violation, otherwise creates the row and returns the
shaped response. -/
def sendMessageService (db : DB) (senderId : Nat) (d : CreateMessageDTO) :
    Except String (MessageResponse × DB) :=
  if jsTrim d.content = "" then .error "Message content is required"
  else
    match findUser db d.receiverId with
    | none => .error "Receiver not found"
    | some _ =>
      if senderId = d.receiverId then .error "Cannot send message to yourself"
      else
        let listingOk : Bool :=
          match d.listingId with
          | some l => if l = 0 then true else listingExists db l
          | none => true
        if listingOk then
          match messageCreate db (jsTrim d.content) senderId d.receiverId
              (jsOrNull d.listingId) with
          | some (m, s, r, db2) => .ok (mkMessageResponse m s r, db2)
          | none => .error "Message create failed"
        else .error "Listing not found"

/-- The rows `prisma.message.updateMany` selects in `mark_messages_read`:
sender = fromUserId, receiver = toUserId, unread. -/
def messageReadPred (fromUserId toUserId : Nat) (m : Message) : Bool :=
  m.senderId = fromUserId && m.receiverId = toUserId && m.isRead = false

/-- The per-row effect of that `updateMany`: flip matching rows to read. -/
def applyMessageRead (fromUserId toUserId : Nat) (m : Message) : Message :=
  if messageReadPred fromUserId toUserId m then { m with isRead := true }
  else m

/-- `prisma.message.updateMany({ where: { senderId, receiverId, isRead:
false }, data: { isRead: true } })`: the updated table and the affected
count. -/
def updateManyMessagesRead (db : DB) (fromUserId toUserId : Nat) :
    DB × Nat :=
  ({ db with
      messages := db.messages.map (applyMessageRead fromUserId toUserId) },
   (db.messages.filter (messageReadPred fromUserId toUserId)).length)

/-- The `mark_messages_read` socket handler (messagingSockets.ts lines
201-232): bulk flip, then `messages_read` to the original sender's
personal room and `messages_marked_read` back to the caller, both
carrying the affected count. -/
def markMessagesReadHandler (db : DB) (selfId : Nat) (selfName : String)
    (fromUserId : Nat) : DB × List Action :=
  let res := updateManyMessagesRead db fromUserId selfId
  (res.1,
   [ .dbUpdateMessagesRead fromUserId selfId,
     .emit (.room (personalRoom fromUserId))
       (.messagesRead selfId selfName res.2),
     .emit .self (.messagesMarkedRead res.2) ])

/-- The `join_conversation` handler (messagingSockets.ts lines 64-79):
joins the canonical conversation room. -/
def joinConversationHandler (selfId otherUserId : Nat) : List Action :=
  [.joinRoom (roomName selfId otherUserId)]

/-- The `leave_conversation` handler (messagingSockets.ts lines 81-85). -/
def leaveConversationHandler (selfId otherUserId : Nat) : List Action :=
  [.leaveRoom (roomName selfId otherUserId)]

/-- The `typing_start` handler (messagingSockets.ts lines 184-191):
relays to the canonical room excluding the sender. -/
def typingStartHandler (selfId : Nat) (selfName : String)
    (receiverId : Nat) : List Action :=
  [.emit (.roomExceptSelf (roomName selfId receiverId))
    (.userTyping selfId selfName)]

/-- The `typing_stop` handler (messagingSockets.ts lines 193-199). -/
def typingStopHandler (selfId receiverId : Nat) : List Action :=
  [.emit (.roomExceptSelf (roomName selfId receiverId))
    (.userStoppedTyping selfId)]

/-- The authentication middleware `io.use` (messagingSockets.ts lines
25-50). The token comes from `socket.handshake.auth.token` (`none` when
absent; the empty string is falsy for `!token`). `jwt.verify` and the
shape of its decoded payload are abstracted into `verify : String →
Option Nat`: `none` when verification throws or the decoded user id is
unusable, `some uid` when the token is validly signed for user `uid`.
Returns the error reason passed to `next(new Error(...))`, or on success
the user id and display name attached to the socket. -/
def authMiddleware (db : DB) (verify : String → Option Nat)
    (token : Option String) : Except String (Nat × String) :=
  match token with
  | none => .error "Authentication token required"
  | some t =>
    if t = "" then .error "Authentication token required"
    else
      match verify t with
      | none => .error "Invalid authentication token"
      | some uid =>
        match findUser db uid with
        | none => .error "Invalid or unverified user"
        | some u =>
          if u.isVerified then .ok (u.id, u.name)
          else .error "Invalid or unverified user"

/-- The outcome of a connection attempt: either refused by the middleware
(no room joined, no handlers registered) or connected, carrying the
resolved identity and the personal room auto-joined by the connection
handler (messagingSockets.ts lines 53-61). -/
inductive ConnResult where
  | refused (reason : String)
  | connected (userId : Nat) (userName : String) (joinedRoom : String)
  deriving Repr, DecidableEq

/-- Connection establishment: the middleware runs first; only on success
does the connection handler run, which joins `user_${userId}`. -/
def connect (db : DB) (verify : String → Option Nat)
    (token : Option String) : ConnResult :=
  match authMiddleware db verify token with
  | .error e => .refused e
  | .ok (uid, name) => .connected uid name (personalRoom uid)

/-- `prisma.notificationSetting.findUnique({ where: { userId } })`. -/
def findSettings (db : DB) (userId : Nat) : Option NotificationSetting :=
  db.settings.find? (fun s => s.userId = userId)

/-- The selection `{ userId, read: false }`: rows owned by the user and
unread. -/
def notifUnreadPred (userId : Nat) (n : Notification) : Bool :=
  n.userId = userId && n.read = false

/-- `prisma.notification.count({ where: { userId, read: false } })`. -/
def unreadNotifCount (db : DB) (userId : Nat) : Nat :=
  (db.notifications.filter (notifUnreadPred userId)).length

/-- `getEmailEnabledForType` (notificationService.ts lines 577-599); the
`?? true` / `?? false` fallbacks are no-ops on the non-nullable boolean
columns. -/
def getEmailEnabledForType (t : NotificationType)
    (s : Option NotificationSetting) : Bool :=
  match s with
  | none => true
  | some s =>
    match t with
    | .NEW_MESSAGE => s.newMessageEmail
    | .SEARCH_MATCH => s.searchMatchEmail
    | .LISTING_INQUIRY => s.listingInquiryEmail
    | .LISTING_FAVORITED => s.listingFavoritedEmail
    | .REPORT_RESOLVED => s.reportResolvedEmail
    | .WEEKLY_DIGEST => s.weeklyDigestEmail

/-- The row `prisma.notification.create` inserts in
`createNotificationService`: the next autoincrement id and the read flag
defaulting to false (Modelled from the spec: the Prisma schema file is
not under src/ and the spec's Notification has "read flag (default
false)"). -/
def newNotificationRow (db : DB) (userId : Nat) (t : NotificationType)
    (title message : String) (data : Option String) : Notification :=
  { id := db.nextNotificationId
    userId := userId
    ntype := t
    title := title
    message := message
    data := data
    read := false }

/-- `createNotificationService` (notificationService.ts lines 338-412).
`ioSet` models whether the module-level `io` handle has been assigned by
`setSocketInstance` (it is `null` until then). The row is created
(read = false); if `io` is set, `new_notification` and then
`notification_count_updated` (with the count recomputed from the store
after the insert) go to the owner's personal room; then the settings row
is fetched (lazily created with defaults when absent) and, when the
master switch and the per-type switch of the *fetched* settings (still
`null` right after lazy creation, hence both default to true) allow it,
an email job row is enqueued. Returns the created notification, the
final store, and the trace. -/
def createNotificationService (db : DB) (ioSet : Bool) (userId : Nat)
    (t : NotificationType) (title message : String) (data : Option String) :
    Notification × DB × List Action :=
  let n : Notification := newNotificationRow db userId t title message data
  let db1 : DB :=
    { db with
        notifications := db.notifications ++ [n]
        nextNotificationId := db.nextNotificationId + 1 }
  let emitActs : List Action :=
    if ioSet then
      [ .emit (.room (personalRoom userId))
          (.newNotification n.id t title message data false),
        .emit (.room (personalRoom userId))
          (.notificationCountUpdated (unreadNotifCount db1 userId)) ]
    else []
  let settings := findSettings db1 userId
  let settingsStep : DB × List Action :=
    match settings with
    | none =>
      ({ db1 with settings := db1.settings ++ [defaultSettings userId] },
       [.dbCreateSettings userId])
    | some _ => (db1, [])
  let emailEnabled : Bool :=
    match settings with
    | some s => s.emailNotifications
    | none => true
  let typeEmailEnabled : Bool := getEmailEnabledForType t settings
  let q : QueueItem :=
    { userId := userId, ntype := t, title := title, message := message
      data := data }
  let queueStep : DB × List Action :=
    if emailEnabled && typeEmailEnabled then
      ({ settingsStep.1 with queue := settingsStep.1.queue ++ [q] },
       [.dbEnqueueEmail q])
    else (settingsStep.1, [])
  (n, queueStep.1,
   [Action.dbCreateNotification n] ++ emitActs ++ settingsStep.2
     ++ queueStep.2)

/-- `markNotificationAsReadService` (notificationService.ts lines
464-500): `findFirst({ where: { id, userId } })` enforces ownership; when
absent, throws "Notification not found" (here `.error`, store untouched);
otherwise `update({ where: { id }, data: { read: true } })`, then, if
`io` is set, `notification_count_updated` with the recomputed count.
Returns (result, final store, trace). -/
def markNotificationAsReadService (db : DB) (ioSet : Bool)
    (notificationId userId : Nat) :
    Except String Notification × DB × List Action :=
  match db.notifications.find?
      (fun n => n.id = notificationId && n.userId = userId) with
  | none => (.error "Notification not found", db, [])
  | some n0 =>
    let db1 : DB :=
      { db with
          notifications := db.notifications.map
            (fun n => if n.id = notificationId then { n with read := true }
                      else n) }
    let emitActs : List Action :=
      if ioSet then
        [.emit (.room (personalRoom userId))
          (.notificationCountUpdated (unreadNotifCount db1 userId))]
      else []
    (.ok { n0 with read := true }, db1,
     [Action.dbUpdateNotificationRead notificationId] ++ emitActs)

/-- `markAllNotificationsAsReadService` (notificationService.ts lines
502-525): `updateMany({ where: { userId, read: false }, data: { read:
true } })` returning the affected count, then, if `io` is set,
`notification_count_updated` with the literal `unreadCount: 0`,
unconditionally. -/
def markAllNotificationsAsReadService (db : DB) (ioSet : Bool)
    (userId : Nat) : Nat × DB × List Action :=
  let count := (db.notifications.filter (notifUnreadPred userId)).length
  let db1 : DB :=
    { db with
        notifications := db.notifications.map
          (fun n => if notifUnreadPred userId n then { n with read := true }
                    else n) }
  let emitActs : List Action :=
    if ioSet then
      [.emit (.room (personalRoom userId)) (.notificationCountUpdated 0)]
    else []
  (count, db1, [Action.dbUpdateAllNotificationsRead userId] ++ emitActs)

theorem char_toNat_inj {c d : Char} (h : c.toNat = d.toNat) : c = d := by
  apply Char.ext
  apply UInt32.ext
  simpa [Char.toNat, UInt32.toNat] using h

theorem charListLt_asymm :
    ∀ a b : List Char, charListLt a b = true → charListLt b a = false
  | [], [] => by simp [charListLt]
  | [], _ :: _ => by simp [charListLt]
  | _ :: _, [] => by simp [charListLt]
  | c :: cs, d :: ds => by
    simp only [charListLt]
    intro h1
    rcases Nat.lt_trichotomy c.toNat d.toNat with h | h | h
    · rw [if_neg (Nat.lt_asymm h), if_pos h]
    · rw [if_neg (h ▸ Nat.lt_irrefl _), if_neg (h ▸ Nat.lt_irrefl _)]
      rw [if_neg (h ▸ Nat.lt_irrefl _), if_neg (h ▸ Nat.lt_irrefl _)] at h1
      exact charListLt_asymm cs ds h1
    · rw [if_neg (Nat.lt_asymm h), if_pos h] at h1
      exact absurd h1 (by simp)

theorem charListLt_eq_of_not_lt :
    ∀ a b : List Char, charListLt a b = false → charListLt b a = false →
      a = b
  | [], [] => by simp
  | [], _ :: _ => by simp [charListLt]
  | _ :: _, [] => by simp [charListLt]
  | c :: cs, d :: ds => by
    simp only [charListLt]
    intro h1 h2
    rcases Nat.lt_trichotomy c.toNat d.toNat with h | h | h
    · rw [if_pos h] at h1
      exact absurd h1 (by simp)
    · rw [if_neg (h ▸ Nat.lt_irrefl _), if_neg (h ▸ Nat.lt_irrefl _)] at h1
      rw [if_neg (h ▸ Nat.lt_irrefl _), if_neg (h ▸ Nat.lt_irrefl _)] at h2
      rw [char_toNat_inj h, charListLt_eq_of_not_lt cs ds h1 h2]
    · rw [if_pos h] at h2
      exact absurd h2 (by simp)

theorem jsStrLt_antisymm {a b : String} (h1 : jsStrLt a b = false)
    (h2 : jsStrLt b a = false) : a = b := by
  cases a with
  | mk la =>
    cases b with
    | mk lb =>
      have : la = lb := charListLt_eq_of_not_lt la lb h1 h2
      rw [this]

theorem roomName_comm (a b : Nat) : roomName a b = roomName b a := by
  unfold roomName
  rcases hab : jsStrLt (toString b) (toString a) with _ | _
  · rcases hba : jsStrLt (toString a) (toString b) with _ | _
    · have h := jsStrLt_antisymm hba hab
      simp [h]
    · simp
  · have h : jsStrLt (toString a) (toString b) = false :=
      charListLt_asymm _ _ hab
    rw [h]
    simp

/-- Inversion of a successful `prisma.message.create`: the created row,
the new store, and the existence of the included sender and receiver. -/
theorem messageCreate_some {db : DB} {content : String}
    {senderId receiverId : Nat} {listingId : Option Nat}
    {m : Message} {s r : User} {db2 : DB}
    (h : messageCreate db content senderId receiverId listingId
        = some (m, s, r, db2)) :
    m = newMessageRow db content senderId receiverId listingId ∧
    db2 = { db with
            messages := db.messages ++ [m],
            nextMessageId := db.nextMessageId + 1 } ∧
    findUser db senderId = some s ∧ findUser db receiverId = some r := by
  unfold messageCreate at h
  rcases hs : findUser db senderId with _ | s0
  · rw [hs] at h
    exact absurd h (by simp)
  · rw [hs] at h
    rcases hr : findUser db receiverId with _ | r0
    · rw [hr] at h
      exact absurd h (by simp)
    · rw [hr] at h
      simp only [] at h
      split at h
      · simp only [Option.some.injEq, Prod.mk.injEq] at h
        obtain ⟨h1, h2, h3, h4⟩ := h
        refine ⟨h1.symm, ?_, ?_, ?_⟩
        · rw [← h1]
          exact h4.symm
        · rw [h2]
        · rw [h3]
      · exact absurd h (by simp)

/-- C6: the canonical conversation-room key is order-independent — for
every pair of user identifiers the key computed for (a, b) equals the key
computed for (b, a), in particular for {5, 9} — and the one key function
`roomName` is what the join_conversation, leave_conversation and typing
handlers (and, per the `send_message` theorem, the message fan-out)
address their room with. -/
theorem c6_room_key_order_independent :
    (∀ a b : Nat, roomName a b = roomName b a) ∧
    roomName 5 9 = roomName 9 5 ∧
    (∀ (a b : Nat) (n : String),
      joinConversationHandler a b = [Action.joinRoom (roomName b a)] ∧
      leaveConversationHandler a b = [Action.leaveRoom (roomName b a)] ∧
      typingStartHandler a n b =
        [Action.emit (Target.roomExceptSelf (roomName b a))
          (SEvent.userTyping a n)] ∧
      typingStopHandler a b =
        [Action.emit (Target.roomExceptSelf (roomName b a))
          (SEvent.userStoppedTyping a)]) := by
  refine ⟨roomName_comm, roomName_comm 5 9, ?_⟩
  intro a b n
  refine ⟨?_, ?_, ?_, ?_⟩ <;>
    simp [joinConversationHandler, leaveConversationHandler,
      typingStartHandler, typingStopHandler, roomName_comm a b]

/-- C1: a `send_message` with non-empty trimmed content, an existing
receiver and a sender distinct from the receiver: when the create
succeeds, the handler produces exactly the four actions — the persisted
row (trimmed content, read = false) followed by the three emissions
`new_message` to the canonical conversation room, `message_notification`
to the receiver's personal room, and `message_sent` to the sending
connection only, in that order, persistence first — and the store gains
exactly that one row; when the create fails, no emission other than the
`message_error` to the sender occurs and the store is unchanged. -/
theorem c1_send_message_persist_then_three_emissions
    (db : DB) (selfId : Nat) (selfName content : String)
    (receiverId : Nat) (listingId : Option Nat) (recv : User)
    (hc : jsTrim content ≠ "")
    (hr : findUser db receiverId = some recv)
    (hne : selfId ≠ receiverId) :
    (∀ m s r db2,
      messageCreate db (jsTrim content) selfId receiverId (jsOrNull listingId)
          = some (m, s, r, db2) →
      sendMessageHandler db selfId selfName content receiverId listingId
          = (db2,
            [ Action.dbCreateMessage m,
              Action.emit (Target.room (roomName selfId receiverId))
                (SEvent.newMessage (mkMessageResponse m s r)),
              Action.emit (Target.room (personalRoom receiverId))
                (SEvent.messageNotification selfId selfName (jsTrim content)
                  (jsOrNull listingId)),
              Action.emit Target.self
                (SEvent.messageSent (mkMessageResponse m s r)) ])
        ∧ db2.messages = db.messages ++ [m]
        ∧ m.content = jsTrim content ∧ m.isRead = false
        ∧ m.senderId = selfId ∧ m.receiverId = receiverId)
    ∧ (messageCreate db (jsTrim content) selfId receiverId (jsOrNull listingId)
          = none →
      sendMessageHandler db selfId selfName content receiverId listingId
          = (db, [Action.emit Target.self
              (SEvent.messageError "Failed to send message")])) := by
  constructor
  · intro m s r db2 hcr
    have hm := (messageCreate_some hcr).1
    have hdb := (messageCreate_some hcr).2.1
    refine ⟨?_, ?_, ?_, ?_, ?_, ?_⟩
    · simp only [sendMessageHandler, if_neg hc, hr, if_neg hne, hcr]
    · rw [hdb]
    · rw [hm]
      rfl
    · rw [hm]
      rfl
    · rw [hm]
      rfl
    · rw [hm]
      rfl
  · intro hcr
    simp only [sendMessageHandler, if_neg hc, hr, if_neg hne, hcr]

/-- A small concrete store used by the witness theorems: two verified
users, one unverified user, one listing, some messages and
notifications. -/
def exDB : DB :=
  { users :=
      [ { id := 1, name := "Alice", avatar := none, isVerified := true },
        { id := 2, name := "Bob", avatar := some "b.png", isVerified := true },
        { id := 3, name := "Carol", avatar := none, isVerified := false } ]
    listings := [7]
    messages :=
      [ { id := 10, content := "hi", senderId := 1, receiverId := 2,
          listingId := none, isRead := false },
        { id := 11, content := "yo", senderId := 1, receiverId := 2,
          listingId := some 7, isRead := true },
        { id := 12, content := "hm", senderId := 2, receiverId := 1,
          listingId := none, isRead := false } ]
    notifications :=
      [ { id := 20, userId := 1, ntype := .NEW_MESSAGE, title := "t",
          message := "m", data := none, read := false },
        { id := 21, userId := 2, ntype := .SEARCH_MATCH, title := "u",
          message := "n", data := none, read := false } ]
    settings := []
    queue := []
    nextMessageId := 100
    nextNotificationId := 200 }

/-- Witness for C1: its hypotheses hold at the concrete store (sender 1
"Alice", receiver 2, content " hi there ", no listing). -/
theorem c1_send_message_witness :
    (∀ m s r db2,
      messageCreate exDB (jsTrim " hi there ") 1 2 (jsOrNull none)
          = some (m, s, r, db2) →
      sendMessageHandler exDB 1 "Alice" " hi there " 2 none
          = (db2,
            [ Action.dbCreateMessage m,
              Action.emit (Target.room (roomName 1 2))
                (SEvent.newMessage (mkMessageResponse m s r)),
              Action.emit (Target.room (personalRoom 2))
                (SEvent.messageNotification 1 "Alice" (jsTrim " hi there ")
                  (jsOrNull none)),
              Action.emit Target.self
                (SEvent.messageSent (mkMessageResponse m s r)) ])
        ∧ db2.messages = exDB.messages ++ [m]
        ∧ m.content = jsTrim " hi there " ∧ m.isRead = false
        ∧ m.senderId = 1 ∧ m.receiverId = 2)
    ∧ (messageCreate exDB (jsTrim " hi there ") 1 2 (jsOrNull none)
          = none →
      sendMessageHandler exDB 1 "Alice" " hi there " 2 none
          = (exDB, [Action.emit Target.self
              (SEvent.messageError "Failed to send message")])) :=
  c1_send_message_persist_then_three_emissions exDB 1 "Alice" " hi there "
    2 none { id := 2, name := "Bob", avatar := some "b.png",
             isVerified := true }
    (by decide) (by decide) (by decide)

/-- A create against a listing id that references no listing fails. -/
theorem messageCreate_none_of_listing {db : DB} {c : String}
    {sId rId l : Nat} (h : listingExists db l = false) :
    messageCreate db c sId rId (some l) = none := by
  unfold messageCreate
  rcases findUser db sId with _ | s0
  · rfl
  · rcases findUser db rId with _ | r0
    · rfl
    · simp [h]

/-- C3: every `send_message` validation violation — content empty after
trimming, unknown receiver, sender equal to receiver, or a (truthy)
listingId that references no listing — produces exactly one emission, a
`message_error` to the sending connection only, and leaves the store
untouched (no Message row, no room or personal-room broadcast); the
handler returns normally, so the connection stays open. -/
theorem c3_send_message_validation_failures
    (db : DB) (selfId : Nat) (selfName content : String)
    (receiverId : Nat) (listingId : Option Nat) :
    (jsTrim content = "" →
      sendMessageHandler db selfId selfName content receiverId listingId
        = (db, [Action.emit Target.self
            (SEvent.messageError "Message content is required")]))
    ∧ (jsTrim content ≠ "" → findUser db receiverId = none →
      sendMessageHandler db selfId selfName content receiverId listingId
        = (db, [Action.emit Target.self
            (SEvent.messageError "Receiver not found")]))
    ∧ (∀ u, jsTrim content ≠ "" → findUser db receiverId = some u →
        selfId = receiverId →
      sendMessageHandler db selfId selfName content receiverId listingId
        = (db, [Action.emit Target.self
            (SEvent.messageError "Cannot send message to yourself")]))
    ∧ (∀ u l, jsTrim content ≠ "" → findUser db receiverId = some u →
        selfId ≠ receiverId → jsOrNull listingId = some l →
        listingExists db l = false →
      sendMessageHandler db selfId selfName content receiverId listingId
        = (db, [Action.emit Target.self
            (SEvent.messageError "Failed to send message")])) := by
  refine ⟨?_, ?_, ?_, ?_⟩
  · intro h
    simp only [sendMessageHandler, if_pos h]
  · intro hc hn
    simp only [sendMessageHandler, if_neg hc, hn]
  · intro u hc hu hself
    simp only [sendMessageHandler, if_neg hc, hu, if_pos hself]
  · intro u l hc hu hne hj hl
    simp only [sendMessageHandler, if_neg hc, hu, if_neg hne, hj,
      messageCreate_none_of_listing hl]

/-- Witness for C3: a self-send at the concrete store is rejected with
`message_error` and leaves the store unchanged. -/
theorem c3_send_message_witness :
    sendMessageHandler exDB 2 "Bob" "hello" 2 none
      = (exDB, [Action.emit Target.self
          (SEvent.messageError "Cannot send message to yourself")]) :=
  (c3_send_message_validation_failures exDB 2 "Bob" "hello" 2 none).2.2.1
    { id := 2, name := "Bob", avatar := some "b.png", isVerified := true }
    (by decide) (by decide) rfl

/-- C10: a supplied `listingId` of 0 behaves exactly as an absent one,
because the code consumes it through JavaScript truthiness
(`if (messageData.listingId)` skips the listing-existence check and
`listingId || null` stores NULL): the service and the socket handler
produce identical results for `some 0` and `none`, and any row the
create persists for that call carries no listing association, nor does
its shaped payload. -/
theorem c10_listing_id_zero_is_absent
    (db : DB) (senderId : Nat) (selfName content : String)
    (receiverId : Nat) :
    jsOrNull (some 0) = none
    ∧ jsTruthy (some 0) = false
    ∧ sendMessageService db senderId
        { content := content, receiverId := receiverId,
          listingId := some 0 }
        = sendMessageService db senderId
            { content := content, receiverId := receiverId,
              listingId := none }
    ∧ sendMessageHandler db senderId selfName content receiverId (some 0)
        = sendMessageHandler db senderId selfName content receiverId none
    ∧ (∀ m s r db2,
        messageCreate db (jsTrim content) senderId receiverId
            (jsOrNull (some 0)) = some (m, s, r, db2) →
        m.listingId = none
          ∧ (mkMessageResponse m s r).listingId = none) := by
  refine ⟨rfl, rfl, rfl, rfl, ?_⟩
  intro m s r db2 hcr
  have hm := (messageCreate_some hcr).1
  rw [hm]
  exact ⟨rfl, rfl⟩

/-- Witness for C10: at the concrete store, the row a listingId-0 send
creates carries no listing association, nor does its shaped payload. -/
theorem c10_listing_id_zero_witness :
    ({ id := 100, content := "hello", senderId := 1, receiverId := 2,
       listingId := none, isRead := false } : Message).listingId = none
    ∧ (mkMessageResponse
        { id := 100, content := "hello", senderId := 1, receiverId := 2,
          listingId := none, isRead := false }
        { id := 1, name := "Alice", avatar := none, isVerified := true }
        { id := 2, name := "Bob", avatar := some "b.png",
          isVerified := true }).listingId = none :=
  (c10_listing_id_zero_is_absent exDB 1 "Alice" "hello" 2).2.2.2.2
    { id := 100, content := "hello", senderId := 1, receiverId := 2,
      listingId := none, isRead := false }
    { id := 1, name := "Alice", avatar := none, isVerified := true }
    { id := 2, name := "Bob", avatar := some "b.png", isVerified := true }
    { exDB with
      messages := exDB.messages ++
        [{ id := 100, content := "hello", senderId := 1, receiverId := 2,
           listingId := none, isRead := false }]
      nextMessageId := 101 }
    (by decide)

/-- A row that went through the bulk read-flip no longer matches the
unread selection. -/
theorem applyMessageRead_pred_false (f t : Nat) (m : Message) :
    messageReadPred f t (applyMessageRead f t m) = false := by
  unfold applyMessageRead
  by_cases h : messageReadPred f t m = true
  · rw [if_pos h]
    simp [messageReadPred]
  · rw [if_neg h]
    simpa using h

theorem applyMessageRead_idem (f t : Nat) (m : Message) :
    applyMessageRead f t (applyMessageRead f t m)
      = applyMessageRead f t m := by
  have h := applyMessageRead_pred_false f t m
  nth_rewrite 1 [applyMessageRead]
  rw [h]
  simp

theorem filter_map_applyMessageRead (f t : Nat) (l : List Message) :
    (l.map (applyMessageRead f t)).filter (messageReadPred f t) = [] := by
  induction l with
  | nil => rfl
  | cons m l ih =>
    simp only [List.map_cons, List.filter_cons, applyMessageRead_pred_false,
      Bool.false_eq_true, if_false, ih]

theorem map_applyMessageRead_idem (f t : Nat) (l : List Message) :
    (l.map (applyMessageRead f t)).map (applyMessageRead f t)
      = l.map (applyMessageRead f t) := by
  induction l with
  | nil => rfl
  | cons m l ih => simp only [List.map_cons, applyMessageRead_idem, ih]

/-- The bulk read-flip never unreads a row. -/
theorem applyMessageRead_isRead_mono (f t : Nat) (m : Message)
    (h : m.isRead = true) : (applyMessageRead f t m).isRead = true := by
  unfold applyMessageRead
  split
  · rfl
  · exact h

/-- C5: `mark_messages_read(fromUserId)` flips exactly the rows with
sender = fromUserId, receiver = caller, read = false (per-row effect
`applyMessageRead`), reports their count to both the original sender's
personal room and the caller; an immediate second call finds nothing to
flip, returns count 0, leaves the store identical, and no call ever
turns a read row back into unread. -/
theorem c5_mark_messages_read_idempotent
    (db : DB) (selfId : Nat) (selfName : String) (fromUserId : Nat) :
    (markMessagesReadHandler db selfId selfName fromUserId).2
      = [ Action.dbUpdateMessagesRead fromUserId selfId,
          Action.emit (Target.room (personalRoom fromUserId))
            (SEvent.messagesRead selfId selfName
              (db.messages.filter (messageReadPred fromUserId
                selfId)).length),
          Action.emit Target.self
            (SEvent.messagesMarkedRead
              (db.messages.filter (messageReadPred fromUserId
                selfId)).length) ]
    ∧ (markMessagesReadHandler db selfId selfName fromUserId).1.messages
        = db.messages.map (applyMessageRead fromUserId selfId)
    ∧ (∀ i (h1 : i < db.messages.length)
          (h2 : i < (markMessagesReadHandler db selfId selfName
            fromUserId).1.messages.length),
        (markMessagesReadHandler db selfId selfName
            fromUserId).1.messages.get ⟨i, h2⟩
          = applyMessageRead fromUserId selfId
              (db.messages.get ⟨i, h1⟩))
    ∧ markMessagesReadHandler
        (markMessagesReadHandler db selfId selfName fromUserId).1
        selfId selfName fromUserId
      = ((markMessagesReadHandler db selfId selfName fromUserId).1,
         [ Action.dbUpdateMessagesRead fromUserId selfId,
           Action.emit (Target.room (personalRoom fromUserId))
             (SEvent.messagesRead selfId selfName 0),
           Action.emit Target.self (SEvent.messagesMarkedRead 0) ])
    ∧ (∀ i (h1 : i < db.messages.length)
          (h2 : i < (markMessagesReadHandler db selfId selfName
            fromUserId).1.messages.length),
        (db.messages.get ⟨i, h1⟩).isRead = true →
        ((markMessagesReadHandler db selfId selfName
            fromUserId).1.messages.get ⟨i, h2⟩).isRead = true) := by
  refine ⟨rfl, rfl, ?_, ?_, ?_⟩
  · intro i h1 h2
    simp [markMessagesReadHandler, updateManyMessagesRead]
  · simp only [markMessagesReadHandler, updateManyMessagesRead]
    rw [map_applyMessageRead_idem, filter_map_applyMessageRead]
    rfl
  · intro i h1 h2 hread
    have hget : (markMessagesReadHandler db selfId selfName
        fromUserId).1.messages.get ⟨i, h2⟩
          = applyMessageRead fromUserId selfId
              (db.messages.get ⟨i, h1⟩) := by
      simp [markMessagesReadHandler, updateManyMessagesRead]
    rw [hget]
    exact applyMessageRead_isRead_mono _ _ _ hread

/-- Witness for C5 at the concrete store: user 2 marks the messages from
user 1 read; one row is flipped, a second call flips none. -/
theorem c5_mark_messages_read_witness :
    (markMessagesReadHandler exDB 2 "Bob" 1).2
      = [ Action.dbUpdateMessagesRead 1 2,
          Action.emit (Target.room (personalRoom 1))
            (SEvent.messagesRead 2 "Bob" 1),
          Action.emit Target.self (SEvent.messagesMarkedRead 1) ]
    ∧ markMessagesReadHandler (markMessagesReadHandler exDB 2 "Bob" 1).1
        2 "Bob" 1
      = ((markMessagesReadHandler exDB 2 "Bob" 1).1,
         [ Action.dbUpdateMessagesRead 1 2,
           Action.emit (Target.room (personalRoom 1))
             (SEvent.messagesRead 2 "Bob" 0),
           Action.emit Target.self (SEvent.messagesMarkedRead 0) ])
    ∧ ((markMessagesReadHandler exDB 2 "Bob" 1).1.messages.get
        ⟨1, by decide⟩).isRead = true := by
  have h := c5_mark_messages_read_idempotent exDB 2 "Bob" 1
  refine ⟨?_, h.2.2.2.1, ?_⟩
  · rw [h.1]
    decide
  · exact h.2.2.2.2 1 (by decide) (by decide) (by decide)

/-- C4: `markNotificationAsRead(id, userId)` enforces ownership through
`findFirst({ where: { id, userId } })`: when no row has that id *and*
that owner, it fails with "Notification not found" and the store is
untouched; on success, the result is the row with read = true, and the
update sets read = true on exactly the rows with that id, leaving every
other row unchanged. -/
theorem c4_mark_notification_read_ownership
    (db : DB) (ioSet : Bool) (nid uid : Nat) :
    ((∀ n ∈ db.notifications, ¬(n.id = nid ∧ n.userId = uid)) →
      markNotificationAsReadService db ioSet nid uid
        = (Except.error "Notification not found", db, []))
    ∧ (∀ n0, db.notifications.find?
          (fun n => n.id = nid && n.userId = uid) = some n0 →
        (markNotificationAsReadService db ioSet nid uid).1
            = Except.ok { n0 with read := true }
        ∧ (markNotificationAsReadService db ioSet nid
              uid).2.1.notifications
            = db.notifications.map
                (fun n => if n.id = nid then { n with read := true }
                          else n)
        ∧ (∀ i (h1 : i < db.notifications.length)
              (h2 : i < (markNotificationAsReadService db ioSet nid
                uid).2.1.notifications.length),
            (markNotificationAsReadService db ioSet nid
                uid).2.1.notifications.get ⟨i, h2⟩
              = if (db.notifications.get ⟨i, h1⟩).id = nid
                then { db.notifications.get ⟨i, h1⟩ with read := true }
                else db.notifications.get ⟨i, h1⟩)) := by
  constructor
  · intro hnone
    have hfind : db.notifications.find?
        (fun n => n.id = nid && n.userId = uid) = none := by
      rw [List.find?_eq_none]
      intro n hn
      simp only [Bool.and_eq_true, decide_eq_true_eq, not_and]
      intro h1 h2
      exact hnone n hn ⟨h1, h2⟩
    simp only [markNotificationAsReadService, hfind]
  · intro n0 hfind
    refine ⟨?_, ?_, ?_⟩
    · simp only [markNotificationAsReadService, hfind]
    · simp only [markNotificationAsReadService, hfind]
    · intro i h1 h2
      simp [markNotificationAsReadService, hfind]

/-- Witness for C4 at the concrete store: notification 21 belongs to
user 2, so user 1 cannot mark it and nothing is mutated; notification 20
belongs to user 1 and is returned flipped. -/
theorem c4_mark_notification_read_witness :
    markNotificationAsReadService exDB true 21 1
      = (Except.error "Notification not found", exDB, [])
    ∧ (markNotificationAsReadService exDB true 20 1).1
      = Except.ok
          { id := 20
            userId := 1
            ntype := .NEW_MESSAGE
            title := "t"
            message := "m"
            data := none
            read := true } := by
  constructor
  · exact (c4_mark_notification_read_ownership exDB true 21 1).1
      (by decide)
  · exact ((c4_mark_notification_read_ownership exDB true 20 1).2
      { id := 20
        userId := 1
        ntype := .NEW_MESSAGE
        title := "t"
        message := "m"
        data := none
        read := false } (by decide)).1

/-- A notification that went through the bulk read-flip no longer
matches the unread selection. -/
theorem notifFlip_pred_false (u : Nat) (n : Notification) :
    notifUnreadPred u (if notifUnreadPred u n then { n with read := true }
      else n) = false := by
  by_cases h : notifUnreadPred u n = true
  · rw [if_pos h]
    simp [notifUnreadPred]
  · rw [if_neg h]
    simpa using h

theorem filter_map_notifFlip (u : Nat) (l : List Notification) :
    (l.map (fun n => if notifUnreadPred u n then { n with read := true }
      else n)).filter (notifUnreadPred u) = [] := by
  induction l with
  | nil => rfl
  | cons n l ih =>
    simp only [List.map_cons, List.filter_cons, notifFlip_pred_false,
      Bool.false_eq_true, if_false, ih]

/-- The notification `createNotificationService` returns is the inserted
row. -/
theorem createNotif_fst (db : DB) (ioSet : Bool) (userId : Nat)
    (t : NotificationType) (title msg : String) (data : Option String) :
    (createNotificationService db ioSet userId t title msg data).1
      = newNotificationRow db userId t title msg data := rfl

/-- Whatever the settings and email branches do, the notification table
of the final store is the old table plus the inserted row. -/
theorem createNotif_notifications (db : DB) (ioSet : Bool) (userId : Nat)
    (t : NotificationType) (title msg : String) (data : Option String) :
    (createNotificationService db ioSet userId t title msg
        data).2.1.notifications
      = db.notifications
          ++ [newNotificationRow db userId t title msg data] := by
  unfold createNotificationService
  dsimp only
  split <;> dsimp only <;> split <;> rfl

/-- The socket emissions of `createNotificationService`, extracted from
its trace: nothing when the io handle is unset, otherwise exactly
`new_notification` followed by `notification_count_updated` with the
count over the post-insert table. -/
theorem createNotif_emissions (db : DB) (ioSet : Bool) (userId : Nat)
    (t : NotificationType) (title msg : String) (data : Option String) :
    emissions (createNotificationService db ioSet userId t title msg
        data).2.2
      = if ioSet then
          [ Action.emit (Target.room (personalRoom userId))
              (SEvent.newNotification db.nextNotificationId t title msg
                data false),
            Action.emit (Target.room (personalRoom userId))
              (SEvent.notificationCountUpdated
                (((db.notifications
                    ++ [newNotificationRow db userId t title msg
                          data]).filter (notifUnreadPred userId)).length)) ]
        else [] := by
  unfold createNotificationService emissions
  dsimp only
  cases ioSet <;>
    (repeat' split) <;>
      simp_all [Action.isEmit, unreadNotifCount, newNotificationRow]

/-- After `markAllNotificationsAsReadService` the live unread count of
that user is 0. -/
theorem markAll_unread_zero (db : DB) (ioSet : Bool) (userId : Nat) :
    unreadNotifCount
      (markAllNotificationsAsReadService db ioSet userId).2.1 userId
      = 0 := by
  unfold markAllNotificationsAsReadService unreadNotifCount
  dsimp only
  rw [filter_map_notifFlip]
  rfl

/-- C2: with the io handle set, every count-changing mutation broadcasts
`notification_count_updated` to the owner's personal room with the live
unread count: creation emits the count recomputed after the insert
(equal to the unread count of the final store), an individual mark-read
emits the count recomputed after the update, and mark-all emits the
literal 0 unconditionally — which equals the live count, since the bulk
update leaves no unread row. -/
theorem c2_count_broadcast_after_every_mutation
    (db : DB) (userId nid : Nat) (t : NotificationType)
    (title msg : String) (data : Option String) :
    emissions (createNotificationService db true userId t title msg
        data).2.2
      = [ Action.emit (Target.room (personalRoom userId))
            (SEvent.newNotification db.nextNotificationId t title msg
              data false),
          Action.emit (Target.room (personalRoom userId))
            (SEvent.notificationCountUpdated
              (unreadNotifCount (createNotificationService db true userId
                t title msg data).2.1 userId)) ]
    ∧ (∀ n0, db.notifications.find?
          (fun n => n.id = nid && n.userId = userId) = some n0 →
        emissions (markNotificationAsReadService db true nid userId).2.2
          = [ Action.emit (Target.room (personalRoom userId))
                (SEvent.notificationCountUpdated
                  (unreadNotifCount (markNotificationAsReadService db
                    true nid userId).2.1 userId)) ])
    ∧ emissions (markAllNotificationsAsReadService db true userId).2.2
        = [ Action.emit (Target.room (personalRoom userId))
              (SEvent.notificationCountUpdated 0) ]
    ∧ unreadNotifCount
        (markAllNotificationsAsReadService db true userId).2.1 userId
        = 0 := by
  refine ⟨?_, ?_, ?_, markAll_unread_zero db true userId⟩
  · rw [createNotif_emissions, unreadNotifCount,
      createNotif_notifications]
    simp
  · intro n0 hfind
    simp only [markNotificationAsReadService, hfind]
    simp [emissions, Action.isEmit]
  · simp [markAllNotificationsAsReadService, emissions, Action.isEmit]

/-- Witness for C2: marking notification 20 (owned by user 1) at the
concrete store emits exactly one count update, carrying the live count
of the resulting store. -/
theorem c2_count_broadcast_witness :
    emissions (markNotificationAsReadService exDB true 20 1).2.2
      = [ Action.emit (Target.room (personalRoom 1))
            (SEvent.notificationCountUpdated
              (unreadNotifCount (markNotificationAsReadService exDB
                true 20 1).2.1 1)) ] :=
  (c2_count_broadcast_after_every_mutation exDB 1 20 .NEW_MESSAGE "t"
      "m" none).2.1
    { id := 20
      userId := 1
      ntype := .NEW_MESSAGE
      title := "t"
      message := "m"
      data := none
      read := false } (by decide)

theorem newNotificationRow_congr {db1 db2 : DB}
    (hid : db1.nextNotificationId = db2.nextNotificationId) (u : Nat)
    (t : NotificationType) (ti me : String) (da : Option String) :
    newNotificationRow db1 u t ti me da
      = newNotificationRow db2 u t ti me da := by
  unfold newNotificationRow
  rw [hid]

/-- C8: the socket emissions of `createNotificationService` do not
depend on the NotificationSetting state — two stores agreeing on the
notification table and the autoincrement counter (but with arbitrary
settings rows) produce identical emissions, the same returned
notification, and the same final notification table; settings reach only
the email-queue branch. -/
theorem c8_create_emissions_settings_independent
    (db1 db2 : DB) (ioSet : Bool) (userId : Nat) (t : NotificationType)
    (title msg : String) (data : Option String)
    (hn : db1.notifications = db2.notifications)
    (hid : db1.nextNotificationId = db2.nextNotificationId) :
    emissions (createNotificationService db1 ioSet userId t title msg
        data).2.2
      = emissions (createNotificationService db2 ioSet userId t title
          msg data).2.2
    ∧ (createNotificationService db1 ioSet userId t title msg data).1
      = (createNotificationService db2 ioSet userId t title msg data).1
    ∧ (createNotificationService db1 ioSet userId t title msg
        data).2.1.notifications
      = (createNotificationService db2 ioSet userId t title msg
          data).2.1.notifications := by
  refine ⟨?_, ?_, ?_⟩
  · rw [createNotif_emissions, createNotif_emissions,
      newNotificationRow_congr hid, hn, hid]
  · rw [createNotif_fst, createNotif_fst]
    exact newNotificationRow_congr hid userId t title msg data
  · rw [createNotif_notifications, createNotif_notifications,
      newNotificationRow_congr hid, hn]

/-- A store identical to `exDB` except that user 1 has every email
toggle switched off. -/
def exDBStrict : DB :=
  { exDB with
      settings :=
        [ { userId := 1
            emailNotifications := false
            newMessageEmail := false
            searchMatchEmail := false
            listingInquiryEmail := false
            listingFavoritedEmail := false
            reportResolvedEmail := false
            weeklyDigestEmail := false } ] }

/-- Witness for C8: the permissive-defaults store and the all-off store
yield identical emissions, returned row and notification table, while
the email queues differ (the default store enqueues, the all-off store
does not). -/
theorem c8_create_emissions_settings_witness :
    (emissions (createNotificationService exDB true 1 .NEW_MESSAGE "t2"
        "m2" none).2.2
      = emissions (createNotificationService exDBStrict true 1
          .NEW_MESSAGE "t2" "m2" none).2.2)
    ∧ ((createNotificationService exDB true 1 .NEW_MESSAGE "t2" "m2"
        none).1
      = (createNotificationService exDBStrict true 1 .NEW_MESSAGE "t2"
          "m2" none).1)
    ∧ ((createNotificationService exDB true 1 .NEW_MESSAGE "t2" "m2"
        none).2.1.notifications
      = (createNotificationService exDBStrict true 1 .NEW_MESSAGE "t2"
          "m2" none).2.1.notifications)
    ∧ (createNotificationService exDB true 1 .NEW_MESSAGE "t2" "m2"
        none).2.1.queue
      ≠ (createNotificationService exDBStrict true 1 .NEW_MESSAGE "t2"
          "m2" none).2.1.queue := by
  have h := c8_create_emissions_settings_independent exDB exDBStrict
    true 1 .NEW_MESSAGE "t2" "m2" none rfl rfl
  exact ⟨h.1, h.2.1, h.2.2, by decide⟩

/-- `markNotificationAsReadService` returns the same result and store
whether or not the io handle is set, and with it unset its trace
contains no emission. -/
theorem markNotifRead_io_independent (db : DB) (nid uid : Nat) :
    (markNotificationAsReadService db false nid uid).1
      = (markNotificationAsReadService db true nid uid).1
    ∧ (markNotificationAsReadService db false nid uid).2.1
      = (markNotificationAsReadService db true nid uid).2.1
    ∧ emissions (markNotificationAsReadService db false nid uid).2.2
      = [] := by
  unfold markNotificationAsReadService
  refine ⟨?_, ?_, ?_⟩ <;> (split <;> rfl)

/-- C9: with the global socket-instance handle unset (`io` still null),
all three notification services perform and return their persistence
mutation exactly as when it is set, but their traces contain no emission
at all. -/
theorem c9_null_io_mutates_without_emitting
    (db : DB) (userId nid : Nat) (t : NotificationType)
    (title msg : String) (data : Option String) :
    emissions (createNotificationService db false userId t title msg
        data).2.2 = []
    ∧ (createNotificationService db false userId t title msg data).1
        = (createNotificationService db true userId t title msg data).1
    ∧ (createNotificationService db false userId t title msg data).2.1
        = (createNotificationService db true userId t title msg data).2.1
    ∧ (createNotificationService db false userId t title msg
        data).2.1.notifications
        = db.notifications
            ++ [newNotificationRow db userId t title msg data]
    ∧ emissions (markNotificationAsReadService db false nid
        userId).2.2 = []
    ∧ (markNotificationAsReadService db false nid userId).1
        = (markNotificationAsReadService db true nid userId).1
    ∧ (markNotificationAsReadService db false nid userId).2.1
        = (markNotificationAsReadService db true nid userId).2.1
    ∧ emissions (markAllNotificationsAsReadService db false
        userId).2.2 = []
    ∧ (markAllNotificationsAsReadService db false userId).1
        = (markAllNotificationsAsReadService db true userId).1
    ∧ (markAllNotificationsAsReadService db false userId).2.1
        = (markAllNotificationsAsReadService db true userId).2.1
    ∧ (markAllNotificationsAsReadService db false userId).1
        = (db.notifications.filter (notifUnreadPred userId)).length
    ∧ (markAllNotificationsAsReadService db false
        userId).2.1.notifications
        = db.notifications.map
            (fun n => if notifUnreadPred userId n
                      then { n with read := true } else n) := by
  refine ⟨?_, rfl, rfl, createNotif_notifications db false userId t
      title msg data,
    (markNotifRead_io_independent db nid userId).2.2,
    (markNotifRead_io_independent db nid userId).1,
    (markNotifRead_io_independent db nid userId).2.1,
    rfl, rfl, rfl, rfl, rfl⟩
  rw [createNotif_emissions]
  rfl

/-- C7: a connection attempt yields a connected socket exactly when the
handshake token is present (non-empty), validly signed (`verify`
extracts a user id), that id resolves to an existing user, and the
user's verified flag is true; the connected socket then carries that
user's id and display name and auto-joins only its personal room, while
every failure yields `refused` — a constructor carrying only the error
reason, with no room and no identity, so no room join or handler
registration can happen on a failed connection. -/
theorem c7_connection_auth_characterization
    (db : DB) (verify : String → Option Nat) (token : Option String)
    (uid : Nat) (name room : String) :
    connect db verify token = ConnResult.connected uid name room
      ↔ ∃ t d u, token = some t ∧ t ≠ ""
          ∧ verify t = some d
          ∧ findUser db d = some u ∧ u.isVerified = true
          ∧ uid = u.id ∧ name = u.name ∧ room = personalRoom u.id := by
  constructor
  · intro h
    unfold connect authMiddleware at h
    rcases token with _ | t
    · exact absurd h (by simp)
    · simp only [] at h
      by_cases ht : t = ""
      · rw [if_pos ht] at h
        exact absurd h (by simp)
      · rw [if_neg ht] at h
        rcases hv : verify t with _ | d
        · rw [hv] at h
          exact absurd h (by simp)
        · rw [hv] at h
          simp only [] at h
          rcases hu : findUser db d with _ | u
          · rw [hu] at h
            exact absurd h (by simp)
          · rw [hu] at h
            simp only [] at h
            by_cases hver : u.isVerified = true
            · rw [if_pos hver] at h
              simp only [ConnResult.connected.injEq] at h
              obtain ⟨h1, h2, h3⟩ := h
              exact ⟨t, d, u, rfl, ht, hv, hu, hver, h1.symm, h2.symm,
                h3.symm⟩
            · rw [if_neg hver] at h
              exact absurd h (by simp)
  · rintro ⟨t, d, u, rfl, ht, hv, hu, hver, rfl, rfl, rfl⟩
    simp only [connect, authMiddleware, if_neg ht, hv, hu, if_pos hver]

end AutoHarbour
